import Mathlib

/-!
Shallow embedding of the ExpenseManager budget/ledger core.

Sources embedded here:
- routes/budgets.js (src/unnamed/part_000): fund, transfer, summary endpoints
  over the `budgets` / `fundings` / `expenses` MongoDB collections;
- routes/expenses.js: expense creation, soft delete, and the `num` validator;
- routes/buckets.js: the bucket-transaction transfer that runs inside a
  MongoDB session transaction.

Identifiers (Mongo ObjectIds) are modelled as `Nat`, dates and timestamps as
`Nat` (milliseconds since epoch), and monetary amounts as `Int` (every `Int`
is a finite number, matching the `Number.isFinite` check in `num`).
Collections are lists of documents; `insertOne` appends, `insertMany` with
`ordered: true` appends documents one by one and, on a storage failure at
index k, durably keeps the first k documents (MongoDB's ordered bulk-write
semantics: no rollback of already-written documents).  A transfer executed
inside `session.withTransaction` (buckets.js) instead aborts as a whole:
on failure nothing is persisted.
-/

namespace ExpenseManager

/-- A document of the `budgets` collection (created by POST /budgets in
routes/budgets.js; `active: { $ne: false }` filters are modelled by the
`active : Bool` field). -/
structure Budget where
  oid : Nat
  workspaceId : Nat
  name : String
  target : Int
  period : String
  active : Bool
  createdAt : Nat
  updatedAt : Nat
  archivedAt : Option Nat
  deriving Repr, DecidableEq

/-- A document of the `fundings` collection: a signed ledger entry written by
POST /budgets/:id/fund or POST /budgets/transfer. -/
structure Funding where
  workspaceId : Nat
  budgetId : Nat
  amount : Int
  date : Nat
  note : Option String
  source : String
  createdAt : Nat
  deriving Repr, DecidableEq

/-- A document of the `expenses` collection (created by POST /expenses in
routes/expenses.js). -/
structure Expense where
  oid : Nat
  workspaceId : Nat
  userId : Nat
  categoryId : Option Nat
  budgetId : Option Nat
  amount : Int
  date : Nat
  active : Bool
  createdAt : Nat
  updatedAt : Nat
  archivedAt : Option Nat
  deriving Repr, DecidableEq

/-- A document of the `categories` collection, restricted to the fields the
expense routes read (`defaultBudgetId` projection). -/
structure Category where
  oid : Nat
  workspaceId : Nat
  defaultBudgetId : Option Nat
  deriving Repr, DecidableEq

/-- The durable store: the collections the budget/ledger core touches. -/
structure Store where
  budgets : List Budget
  fundings : List Funding
  expenses : List Expense
  categories : List Category
  deriving Repr, DecidableEq

/-- MongoDB enforces `_id` uniqueness per collection; a well-formed store has
no two budget documents and no two expense documents sharing an id. -/
def Store.wf (s : Store) : Prop :=
  (s.budgets.map Budget.oid).Nodup ∧ (s.expenses.map Expense.oid).Nodup

/-- Lookup `db.collection('budgets').findOne({ _id, workspaceId: ws, active: { $ne: false } })`
used by the fund and expense-validation paths. -/
def findBudgetActive (s : Store) (ws bid : Nat) : Option Budget :=
  s.budgets.find? (fun b => b.oid == bid && b.workspaceId == ws && b.active)

/-- Lookup `db.collection('budgets').findOne({ _id, workspaceId: ws })` used
by GET /budgets/:id/summary (note: no `active` filter). -/
def findBudgetAny (s : Store) (ws bid : Nat) : Option Budget :=
  s.budgets.find? (fun b => b.oid == bid && b.workspaceId == ws)

/-- Outcome of a storage write from the driver's point of view: either the
whole batch is written, or the write fails at document index `k` (for an
`ordered: true` `insertMany`, the first `k` documents are already durable). -/
inductive WriteOutcome where
  | ok
  | failAfter (k : Nat)
  deriving Repr, DecidableEq

/-! ## POST /budgets/:id/fund (routes/budgets.js lines 152-177) -/

inductive FundResult where
  /-- Status 201 with the inserted funding document. -/
  | ok (entry : Funding)
  /-- Status 400 from the Joi schema: `amount: Joi.number().greater(0).required()`. -/
  | invalidAmount
  /-- Status 404 `Budget not found or archived`. -/
  | notFound
  deriving Repr, DecidableEq

/-- The funding document built by the fund handler (`note: value.note || undefined`,
`source: value.source || 'manual'`). -/
def fundDoc (ws bid : Nat) (amount : Int) (date : Nat) (note source : Option String)
    (now : Nat) : Funding :=
  { workspaceId := ws
    budgetId := bid
    amount := amount
    date := date
    note := match note with
      | some n => if n = "" then none else some n
      | none => none
    source := match source with
      | some sc => if sc = "" then "manual" else sc
      | none => "manual"
    createdAt := now }

/-- POST /budgets/:id/fund: validate `amount > 0`, require the budget to be
active in the workspace, then `insertOne` the funding document. -/
def fund (s : Store) (ws bid : Nat) (amount : Int) (date : Nat)
    (note source : Option String) (now : Nat) : FundResult × Store :=
  if amount ≤ 0 then (.invalidAmount, s)
  else
    match findBudgetActive s ws bid with
    | none => (.notFound, s)
    | some _ =>
      let doc := fundDoc ws bid amount date note source now
      (.ok doc, { s with fundings := s.fundings ++ [doc] })

/-! ## POST /budgets/transfer (routes/budgets.js lines 184-229) -/

inductive TransferResult where
  /-- Status 201 `{ ok: true }`. -/
  | ok
  /-- Status 400 from the Joi schema (`amount` must be greater than 0). -/
  | validationError
  /-- Status 400 `Invalid from/to budget` (unparsable or identical ids). -/
  | invalidTransfer
  /-- Status 400 `Budgets not found or archived`. -/
  | budgetNotFound
  /-- Failure of the `insertMany` batch write. -/
  | storageFailure
  deriving Repr, DecidableEq

/-- The number of budgets matching
`{ _id: { $in: [fromId, toId] }, workspaceId: ws, active: { $ne: false } }`. -/
def countMatchingBudgets (s : Store) (ws fromId toId : Nat) : Nat :=
  (s.budgets.filter
    (fun b => (b.oid == fromId || b.oid == toId) && b.workspaceId == ws && b.active)).length

/-- The debit-leg note: `value.note ? `Transfer out: ${value.note}` : 'Transfer out'`. -/
def transferNoteOut (note : Option String) : String :=
  match note with
  | some n => "Transfer out: " ++ n
  | none => "Transfer out"

/-- The credit-leg note: `value.note ? `Transfer in: ${value.note}` : 'Transfer in'`. -/
def transferNoteIn (note : Option String) : String :=
  match note with
  | some n => "Transfer in: " ++ n
  | none => "Transfer in"

/-- The two-leg batch built by the transfer handler: debit on `fromId` with
amount `-Math.abs(amount)`, credit on `toId` with `Math.abs(amount)`, both
with `date` and `createdAt` equal to the single `now` timestamp. -/
def transferDocs (ws fromId toId : Nat) (amount : Int) (note : Option String)
    (now : Nat) : List Funding :=
  [ { workspaceId := ws
      budgetId := fromId
      amount := -|amount|
      date := now
      note := some (transferNoteOut note)
      source := "transfer"
      createdAt := now }
  , { workspaceId := ws
      budgetId := toId
      amount := |amount|
      date := now
      note := some (transferNoteIn note)
      source := "transfer"
      createdAt := now } ]

/-- POST /budgets/transfer: Joi validation (`amount > 0`), reject identical
ids, require both budgets active in the workspace (`budgets.length !== 2`),
then `insertMany(docs, { ordered: true })`.  The ordered bulk write is NOT a
transaction: when the storage layer fails at document index `k`, the first
`k` documents stay durably persisted. -/
def transfer (s : Store) (ws fromId toId : Nat) (amount : Int)
    (note : Option String) (now : Nat) (w : WriteOutcome) : TransferResult × Store :=
  if amount ≤ 0 then (.validationError, s)
  else if fromId = toId then (.invalidTransfer, s)
  else if countMatchingBudgets s ws fromId toId ≠ 2 then (.budgetNotFound, s)
  else
    let docs := transferDocs ws fromId toId amount note now
    match w with
    | .ok => (.ok, { s with fundings := s.fundings ++ docs })
    | .failAfter k =>
      if docs.length ≤ k then (.ok, { s with fundings := s.fundings ++ docs })
      else (.storageFailure, { s with fundings := s.fundings ++ docs.take k })

/-! ## GET /budgets/:id/summary (routes/budgets.js lines 235-284) -/

structure Totals where
  funded : Int
  spent : Int
  remainingClassic : Int
  envelopeRemaining : Int
  deriving Repr, DecidableEq

inductive SummaryResult where
  /-- Status 200 with the budget header and the aggregated totals. -/
  | ok (budget : Budget) (totals : Totals)
  /-- Status 404 `Budget not found`. -/
  | budgetNotFound
  deriving Repr, DecidableEq

/-- The fundings aggregation:
`$match: { workspaceId, budgetId, date: { $gte: from, $lt: to } }`,
`$group: { total: { $sum: '$amount' } }` (empty match yields 0). -/
def fundedSum (s : Store) (ws bid fromD toD : Nat) : Int :=
  ((s.fundings.filter (fun f =>
      f.workspaceId == ws && f.budgetId == bid &&
      decide (fromD ≤ f.date) && decide (f.date < toD))).map Funding.amount).sum

/-- The expenses aggregation: same `$match` shape — workspaceId, budgetId and
date window only; there is no filter on the `active` flag. -/
def spentSum (s : Store) (ws bid fromD toD : Nat) : Int :=
  ((s.expenses.filter (fun e =>
      e.workspaceId == ws && e.budgetId == some bid &&
      decide (fromD ≤ e.date) && decide (e.date < toD))).map Expense.amount).sum

/-- GET /budgets/:id/summary over the window `[fromD, toD)`: look the budget
up by `{ _id, workspaceId }` (archived budgets are summarizable), aggregate
`funded` and `spent`, then
`remainingClassic = Math.max(0, (budget.target || 0) - spent)` and
`envelopeRemaining = funded - spent`. -/
def summarize (s : Store) (ws bid fromD toD : Nat) : SummaryResult :=
  match findBudgetAny s ws bid with
  | none => .budgetNotFound
  | some budget =>
    let funded := fundedSum s ws bid fromD toD
    let spent := spentSum s ws bid fromD toD
    .ok budget
      { funded := funded
        spent := spent
        remainingClassic := max 0 (budget.target - spent)
        envelopeRemaining := funded - spent }

/-- The totals record the summary endpoint produces for budget document `b`
over the window `[fromD, toD)`. -/
def summaryTotals (s : Store) (ws bid fromD toD : Nat) (b : Budget) : Totals :=
  { funded := fundedSum s ws bid fromD toD
    spent := spentSum s ws bid fromD toD
    remainingClassic := max 0 (b.target - spentSum s ws bid fromD toD)
    envelopeRemaining := fundedSum s ws bid fromD toD - spentSum s ws bid fromD toD }

/-! ## POST /buckets/transfer (routes/buckets.js lines 51-85)

The bucket variant writes its two legs inside `session.withTransaction`:
a MongoDB multi-document transaction.  When either insert fails the whole
transaction aborts and nothing is persisted. -/

/-- A document of the `bucket_transactions` collection. -/
structure BucketTxn where
  workspaceId : Nat
  bucketId : Nat
  kind : String
  amount : Int
  createdAt : Nat
  createdBy : Nat
  deriving Repr, DecidableEq

/-- The TRANSFER_OUT / TRANSFER_IN pair written by POST /buckets/transfer. -/
def bucketTransferDocs (ws userId fromId toId : Nat) (amount : Int)
    (now : Nat) : List BucketTxn :=
  [ { workspaceId := ws, bucketId := fromId, kind := "TRANSFER_OUT"
      amount := amount, createdAt := now, createdBy := userId }
  , { workspaceId := ws, bucketId := toId, kind := "TRANSFER_IN"
      amount := amount, createdAt := now, createdBy := userId } ]

/-- POST /buckets/transfer: both legs are inserted with the session inside
`withTransaction`; a failure (of either insert) aborts the transaction, so
the collection is unchanged; on success both legs are appended. -/
def bucketTransfer (txns : List BucketTxn) (ws userId fromId toId : Nat)
    (amount : Int) (now : Nat) (w : WriteOutcome) : Bool × List BucketTxn :=
  let docs := bucketTransferDocs ws userId fromId toId amount now
  match w with
  | .ok => (true, txns ++ docs)
  | .failAfter k =>
    if docs.length ≤ k then (true, txns ++ docs)
    else (false, txns)

/-! ## POST /expenses (routes/expenses.js lines 64-117) -/

inductive ExpenseResult where
  /-- Status 201 with the inserted expense. -/
  | ok (e : Expense)
  /-- Status 400 `amount is required`. -/
  | amountRequired
  /-- Status 400 `budgetId not found in workspace or archived`. -/
  | budgetNotInWorkspace
  deriving Repr, DecidableEq

/-- Lookup `db.collection('categories').findOne({ _id, workspaceId })` with
the `defaultBudgetId` projection. -/
def findCategory (s : Store) (ws cid : Nat) : Option Category :=
  s.categories.find? (fun c => c.oid == cid && c.workspaceId == ws)

/-- The expense document assembled by the POST /expenses handler before the
budget auto-map step; `amount` has gone through `num`, which only checks
`Number.isFinite` (every `Int` is finite, so any amount passes), and
`date: req.body.date ? new Date(req.body.date) : now`. -/
def expenseBase (ws userId : Nat) (categoryId budgetId : Option Nat)
    (a : Int) (date : Option Nat) (now newId : Nat) : Expense :=
  { oid := newId, workspaceId := ws, userId := userId
    categoryId := categoryId, budgetId := budgetId
    amount := a, date := date.getD now, active := true
    createdAt := now, updatedAt := now, archivedAt := none }

/-- The auto-map step of POST /expenses: when `budgetId` is absent but
`categoryId` is given, take `category.defaultBudgetId` if that budget is
still active in the workspace. -/
def automapBudget (s : Store) (ws : Nat) (base : Expense) : Expense :=
  if base.budgetId.isNone then
    match base.categoryId with
    | some cid =>
      match findCategory s ws cid with
      | some cat =>
        match cat.defaultBudgetId with
        | some dbid =>
          match findBudgetActive s ws dbid with
          | some b => { base with budgetId := some b.oid }
          | none => base
        | none => base
      | none => base
    | none => base
  else base

/-- The validation-and-insert tail of POST /expenses: a present `budgetId`
must be active in the workspace (`countDocuments` with limit 1), then
`insertOne`. -/
def createExpenseInsert (s : Store) (ws : Nat) (ex : Expense) :
    ExpenseResult × Store :=
  match ex.budgetId with
  | some bid =>
    if (findBudgetActive s ws bid).isSome then
      (.ok ex, { s with expenses := s.expenses ++ [ex] })
    else (.budgetNotInWorkspace, s)
  | none => (.ok ex, { s with expenses := s.expenses ++ [ex] })

/-- POST /expenses: `amount` is required; build the document, auto-map the
budget from the category if needed, validate and insert. -/
def createExpense (s : Store) (ws userId : Nat) (categoryId budgetId : Option Nat)
    (amount : Option Int) (date : Option Nat) (now newId : Nat) :
    ExpenseResult × Store :=
  match amount with
  | none => (.amountRequired, s)
  | some a =>
    createExpenseInsert s ws
      (automapBudget s ws (expenseBase ws userId categoryId budgetId a date now newId))

/-! ## DELETE /expenses/:id (routes/expenses.js lines 230-246) -/

inductive DeleteResult where
  /-- Status 200 `{ ok: true, archivedAt }`. -/
  | ok
  /-- Status 404 `Expense not found or already archived`. -/
  | notFound
  deriving Repr, DecidableEq

/-- `findOneAndUpdate` touches the first matching document only. -/
def updateFirst (p : Expense → Bool) (f : Expense → Expense) :
    List Expense → List Expense
  | [] => []
  | e :: es => if p e then f e :: es else e :: updateFirst p f es

/-- The match filter of the soft delete:
`{ _id, workspaceId, active: { $ne: false } }`. -/
def deleteMatch (ws eid : Nat) (e : Expense) : Bool :=
  e.oid == eid && e.workspaceId == ws && e.active

/-- DELETE /expenses/:id (soft delete): `findOneAndUpdate` with
`$set: { active: false, archivedAt: now, updatedAt: now }`; 404 when no
active expense with that id exists in the workspace. -/
def deleteExpense (s : Store) (ws eid now : Nat) : DeleteResult × Store :=
  if (s.expenses.find? (deleteMatch ws eid)).isSome then
    let upd := fun (e : Expense) =>
      { e with active := false, archivedAt := some now, updatedAt := now }
    (.ok, { s with expenses := updateFirst (deleteMatch ws eid) upd s.expenses })
  else (.notFound, s)

/-! ## Spec-level predicates and concrete fixtures -/

/-- The budget `bid` exists in workspace `ws` as an active budget — the
condition the spec's write-time checks are about. -/
def budgetActiveIn (s : Store) (ws bid : Nat) : Prop :=
  ∃ b ∈ s.budgets, b.oid = bid ∧ b.workspaceId = ws ∧ b.active = true

instance (s : Store) (ws bid : Nat) : Decidable (budgetActiveIn s ws bid) := by
  unfold budgetActiveIn; infer_instance

/-- Fixture: the "Groceries" budget of workspace 7. -/
def groceries : Budget :=
  { oid := 1, workspaceId := 7, name := "Groceries", target := 200
    period := "monthly", active := true, createdAt := 0, updatedAt := 0
    archivedAt := none }

/-- Fixture: the "Dining" budget of workspace 7. -/
def dining : Budget :=
  { oid := 2, workspaceId := 7, name := "Dining", target := 100
    period := "monthly", active := true, createdAt := 0, updatedAt := 0
    archivedAt := none }

/-- Fixture: an archived "Travel" budget of workspace 7. -/
def travelArchived : Budget :=
  { oid := 3, workspaceId := 7, name := "Travel", target := 50
    period := "monthly", active := false, createdAt := 0, updatedAt := 0
    archivedAt := some 5 }

/-- Fixture store: two active budgets and one archived budget in
workspace 7, no ledger entries yet. -/
def exStore : Store :=
  { budgets := [groceries, dining, travelArchived]
    fundings := [], expenses := [], categories := [] }

/-- Fixture store with one expense of amount 40 on day 5 against budget 1
of workspace 7. -/
def exStoreSpent : Store :=
  { exStore with expenses :=
      [ { oid := 50, workspaceId := 7, userId := 99, categoryId := none
          budgetId := some 1, amount := 40, date := 5, active := true
          createdAt := 5, updatedAt := 5, archivedAt := none } ] }

/-! ## Helper lemmas -/

theorem findBudgetActive_eq_none_iff (s : Store) (ws bid : Nat) :
    findBudgetActive s ws bid = none ↔ ¬ budgetActiveIn s ws bid := by
  unfold findBudgetActive budgetActiveIn
  rw [List.find?_eq_none]
  constructor
  · rintro h ⟨b, hb, h1, h2, h3⟩
    exact (h b hb) (by simp [h1, h2, h3])
  · intro h b hb hp
    apply h
    refine ⟨b, hb, ?_⟩
    simp only [Bool.and_eq_true, beq_iff_eq] at hp
    exact ⟨hp.1.1, hp.1.2, hp.2⟩

theorem findBudgetActive_isSome_iff (s : Store) (ws bid : Nat) :
    (findBudgetActive s ws bid).isSome ↔ budgetActiveIn s ws bid := by
  unfold findBudgetActive budgetActiveIn
  rw [List.find?_isSome]
  constructor
  · rintro ⟨b, hb, hp⟩
    refine ⟨b, hb, ?_⟩
    simp only [Bool.and_eq_true, beq_iff_eq] at hp
    exact ⟨hp.1.1, hp.1.2, hp.2⟩
  · rintro ⟨b, hb, h1, h2, h3⟩
    exact ⟨b, hb, by simp [h1, h2, h3]⟩

theorem findBudgetAny_isSome_of_active (s : Store) (ws bid : Nat)
    (h : budgetActiveIn s ws bid) : ∃ b, findBudgetAny s ws bid = some b := by
  obtain ⟨b, hb, h1, h2, _⟩ := h
  have hs : (findBudgetAny s ws bid).isSome :=
    List.find?_isSome.mpr ⟨b, hb, by simp [h1, h2]⟩
  exact Option.isSome_iff_exists.mp hs

theorem count_two_both_found (s : Store) (ws f t : Nat)
    (hnd : (s.budgets.map Budget.oid).Nodup)
    (h2 : countMatchingBudgets s ws f t = 2) :
    budgetActiveIn s ws f ∧ budgetActiveIn s ws t := by
  unfold countMatchingBudgets at h2
  obtain ⟨b1, b2, hl⟩ := List.length_eq_two.mp h2
  have hsub := List.filter_sublist (p := fun b : Budget =>
    (b.oid == f || b.oid == t) && b.workspaceId == ws && b.active) s.budgets
  have hnd2 := hnd.sublist (hsub.map Budget.oid)
  rw [hl] at hnd2
  have hb1 : b1 ∈ s.budgets.filter (fun b =>
      (b.oid == f || b.oid == t) && b.workspaceId == ws && b.active) := by
    rw [hl]; exact List.mem_cons_self _ _
  have hb2 : b2 ∈ s.budgets.filter (fun b =>
      (b.oid == f || b.oid == t) && b.workspaceId == ws && b.active) := by
    rw [hl]; exact List.mem_cons_of_mem _ (List.mem_cons_self _ _)
  have hm1 : b1 ∈ s.budgets := List.mem_of_mem_filter hb1
  have hm2 : b2 ∈ s.budgets := List.mem_of_mem_filter hb2
  have hp1 := List.of_mem_filter hb1
  have hp2 := List.of_mem_filter hb2
  have hne12 : b1.oid ≠ b2.oid := by
    simp [List.nodup_cons] at hnd2
    exact hnd2
  simp only [Bool.and_eq_true, Bool.or_eq_true, beq_iff_eq] at hp1 hp2
  obtain ⟨⟨ho1, hw1⟩, ha1⟩ := hp1
  obtain ⟨⟨ho2, hw2⟩, ha2⟩ := hp2
  rcases ho1 with h1f | h1t
  · rcases ho2 with h2f | h2t
    · exact absurd (h1f.trans h2f.symm) hne12
    · exact ⟨⟨b1, hm1, h1f, hw1, ha1⟩, ⟨b2, hm2, h2t, hw2, ha2⟩⟩
  · rcases ho2 with h2f | h2t
    · exact ⟨⟨b2, hm2, h2f, hw2, ha2⟩, ⟨b1, hm1, h1t, hw1, ha1⟩⟩
    · exact absurd (h1t.trans h2t.symm) hne12

theorem transfer_ok_spec (s : Store) (ws f t : Nat) (A : Int) (note : Option String)
    (now : Nat) (w : WriteOutcome)
    (h : (transfer s ws f t A note now w).1 = .ok) :
    0 < A ∧ f ≠ t ∧ countMatchingBudgets s ws f t = 2 ∧
    (transfer s ws f t A note now w).2 =
      { s with fundings := s.fundings ++ transferDocs ws f t A note now } := by
  unfold transfer at h ⊢
  by_cases h1 : A ≤ 0
  · simp [h1] at h
  rw [if_neg h1] at h ⊢
  by_cases h2 : f = t
  · simp [h2] at h
  rw [if_neg h2] at h ⊢
  by_cases h3 : countMatchingBudgets s ws f t ≠ 2
  · simp [h3] at h
  rw [if_neg h3] at h ⊢
  refine ⟨by omega, h2, by omega, ?_⟩
  cases w with
  | ok => rfl
  | failAfter k =>
    by_cases h4 : (transferDocs ws f t A note now).length ≤ k
    · simp only [h4, if_true]
    · simp only [h4, if_false] at h
      simp at h

theorem fund_ok_spec (s : Store) (ws bid : Nat) (A : Int) (date : Nat)
    (note src : Option String) (now : Nat) (e : Funding)
    (h : (fund s ws bid A date note src now).1 = .ok e) :
    0 < A ∧ budgetActiveIn s ws bid ∧ e = fundDoc ws bid A date note src now ∧
    (fund s ws bid A date note src now).2 =
      { s with fundings := s.fundings ++ [fundDoc ws bid A date note src now] } := by
  unfold fund at h ⊢
  by_cases h1 : A ≤ 0
  · simp [h1] at h
  rw [if_neg h1] at h ⊢
  cases hfb : findBudgetActive s ws bid with
  | none => rw [hfb] at h; simp at h
  | some b =>
    have hact : budgetActiveIn s ws bid := by
      rw [← findBudgetActive_isSome_iff, hfb]
      rfl
    rw [hfb] at h
    have h2 : FundResult.ok (fundDoc ws bid A date note src now) = FundResult.ok e := h
    cases h2
    exact ⟨by omega, hact, rfl, rfl⟩

theorem fundedSum_append (s : Store) (l : List Funding) (ws bid fromD toD : Nat) :
    fundedSum { s with fundings := s.fundings ++ l } ws bid fromD toD =
      fundedSum s ws bid fromD toD +
      ((l.filter (fun fd => fd.workspaceId == ws && fd.budgetId == bid &&
        decide (fromD ≤ fd.date) && decide (fd.date < toD))).map Funding.amount).sum := by
  unfold fundedSum
  simp [List.filter_append]

theorem summarize_funded (s : Store) (ws bid fromD toD : Nat) (b : Budget)
    (hb : findBudgetAny s ws bid = some b) :
    summarize s ws bid fromD toD = .ok b (summaryTotals s ws bid fromD toD b) := by
  unfold summarize summaryTotals
  rw [hb]

theorem sum_filter_updateFirst (pm : Expense → Bool) (now : Nat)
    (q : Expense → Bool)
    (hq : ∀ e, q { e with active := false, archivedAt := some now, updatedAt := now } = q e) :
    ∀ l : List Expense,
      (((updateFirst pm
          (fun e => { e with active := false, archivedAt := some now, updatedAt := now })
          l).filter q).map Expense.amount).sum
        = ((l.filter q).map Expense.amount).sum := by
  intro l
  induction l with
  | nil => rfl
  | cons e es ih =>
    by_cases hp : pm e = true
    · by_cases hqe : q e = true
      · simp [updateFirst, hp, List.filter_cons, hq e, hqe]
      · simp [updateFirst, hp, List.filter_cons, hq e, hqe]
    · by_cases hqe : q e = true
      · simp [updateFirst, hp, List.filter_cons, hqe, ih]
      · simp [updateFirst, hp, List.filter_cons, hqe, ih]

theorem summarize_congr (s1 s2 : Store) (ws bid fromD toD : Nat)
    (hb : findBudgetAny s1 ws bid = findBudgetAny s2 ws bid)
    (hf : fundedSum s1 ws bid fromD toD = fundedSum s2 ws bid fromD toD)
    (hs : spentSum s1 ws bid fromD toD = spentSum s2 ws bid fromD toD) :
    summarize s1 ws bid fromD toD = summarize s2 ws bid fromD toD := by
  unfold summarize
  rw [hb]
  simp only [hf, hs]

theorem summarize_deleteExpense (s : Store) (ws eid now : Nat)
    (ws2 bid fromD toD : Nat) :
    summarize ((deleteExpense s ws eid now).2) ws2 bid fromD toD =
      summarize s ws2 bid fromD toD := by
  unfold deleteExpense
  by_cases h : (s.expenses.find? (deleteMatch ws eid)).isSome = true
  · rw [if_pos h]
    refine summarize_congr _ _ _ _ _ _ rfl rfl ?_
    unfold spentSum
    exact sum_filter_updateFirst (deleteMatch ws eid) now
      (fun e => e.workspaceId == ws2 && e.budgetId == some bid &&
        decide (fromD ≤ e.date) && decide (e.date < toD))
      (fun e => rfl) s.expenses
  · rw [if_neg h]

theorem automapBudget_amount (s : Store) (ws : Nat) (base : Expense) :
    (automapBudget s ws base).amount = base.amount := by
  unfold automapBudget
  repeat' split
  all_goals rfl

theorem createExpenseInsert_ok (s : Store) (ws : Nat) (ex e : Expense)
    (he : (createExpenseInsert s ws ex).1 = .ok e) : e = ex := by
  unfold createExpenseInsert at he
  split at he
  · split at he
    · have h2 : ExpenseResult.ok ex = ExpenseResult.ok e := he
      cases h2
      rfl
    · exact absurd he (by simp)
  · have h2 : ExpenseResult.ok ex = ExpenseResult.ok e := he
    cases h2
    rfl

/-! ## Claim theorems -/

/-- C2: for every workspace, budget and window `[fromD, toD)`, a successful
summary returns `funded` equal to the sum of the amounts of the funding
ledger entries whose workspaceId and budgetId match and whose date lies in
the window, `spent` equal to the analogous sum over expense amounts,
`remainingClassic = max 0 (target - spent)` and
`envelopeRemaining = funded - spent`. -/
theorem C2_summary_totals (s : Store) (ws bid fromD toD : Nat) (b : Budget) (t : Totals)
    (h : summarize s ws bid fromD toD = .ok b t) :
    t.funded = ((s.fundings.filter (fun fd =>
        decide (fd.workspaceId = ws ∧ fd.budgetId = bid ∧
          fromD ≤ fd.date ∧ fd.date < toD))).map Funding.amount).sum ∧
    t.spent = ((s.expenses.filter (fun e =>
        decide (e.workspaceId = ws ∧ e.budgetId = some bid ∧
          fromD ≤ e.date ∧ e.date < toD))).map Expense.amount).sum ∧
    t.remainingClassic = max 0 (b.target - t.spent) ∧
    t.envelopeRemaining = t.funded - t.spent := by
  unfold summarize at h
  revert h
  cases hfb : findBudgetAny s ws bid with
  | none =>
    intro h
    exact absurd h (by simp)
  | some b2 =>
    intro h
    have h2 : SummaryResult.ok b2
        { funded := fundedSum s ws bid fromD toD
          spent := spentSum s ws bid fromD toD
          remainingClassic := max 0 (b2.target - spentSum s ws bid fromD toD)
          envelopeRemaining :=
            fundedSum s ws bid fromD toD - spentSum s ws bid fromD toD } =
        SummaryResult.ok b t := h
    cases h2
    refine ⟨?_, ?_, rfl, rfl⟩
    · unfold fundedSum
      have hfe : (s.fundings.filter (fun fd =>
            fd.workspaceId == ws && fd.budgetId == bid &&
            decide (fromD ≤ fd.date) && decide (fd.date < toD))) =
          (s.fundings.filter (fun fd =>
            decide (fd.workspaceId = ws ∧ fd.budgetId = bid ∧
              fromD ≤ fd.date ∧ fd.date < toD))) :=
        List.filter_congr (fun x _ => by rw [Bool.eq_iff_iff]; simp [and_assoc])
      rw [hfe]
    · unfold spentSum
      have hse : (s.expenses.filter (fun e =>
            e.workspaceId == ws && e.budgetId == some bid &&
            decide (fromD ≤ e.date) && decide (e.date < toD))) =
          (s.expenses.filter (fun e =>
            decide (e.workspaceId = ws ∧ e.budgetId = some bid ∧
              fromD ≤ e.date ∧ e.date < toD))) :=
        List.filter_congr (fun x _ => by rw [Bool.eq_iff_iff]; simp [and_assoc])
      rw [hse]

/-- C2 witness: a concrete successful summary. -/
theorem C2_summary_totals_witness :
    summarize exStoreSpent 7 1 0 10 =
      .ok groceries
        { funded := 0, spent := 40, remainingClassic := 160, envelopeRemaining := -40 } ∧
    ((0 : Int) =
        ((exStoreSpent.fundings.filter (fun fd =>
          decide (fd.workspaceId = 7 ∧ fd.budgetId = 1 ∧
            0 ≤ fd.date ∧ fd.date < 10))).map Funding.amount).sum ∧
      (40 : Int) =
        ((exStoreSpent.expenses.filter (fun e =>
          decide (e.workspaceId = 7 ∧ e.budgetId = some 1 ∧
            0 ≤ e.date ∧ e.date < 10))).map Expense.amount).sum ∧
      (160 : Int) = max 0 (groceries.target - 40) ∧
      (-40 : Int) = 0 - 40) :=
  ⟨by decide,
    C2_summary_totals exStoreSpent 7 1 0 10 groceries
      { funded := 0, spent := 40, remainingClassic := 160, envelopeRemaining := -40 }
      (by decide)⟩

/-- C8: for every budget target and every spent total, the
`remainingClassic` value returned by the summary operation is never
negative. -/
theorem C8_remainingClassic_nonneg (s : Store) (ws bid fromD toD : Nat)
    (b : Budget) (t : Totals)
    (h : summarize s ws bid fromD toD = .ok b t) : 0 ≤ t.remainingClassic := by
  unfold summarize at h
  revert h
  cases hfb : findBudgetAny s ws bid with
  | none =>
    intro h
    exact absurd h (by simp)
  | some b2 =>
    intro h
    have h2 : SummaryResult.ok b2
        { funded := fundedSum s ws bid fromD toD
          spent := spentSum s ws bid fromD toD
          remainingClassic := max 0 (b2.target - spentSum s ws bid fromD toD)
          envelopeRemaining :=
            fundedSum s ws bid fromD toD - spentSum s ws bid fromD toD } =
        SummaryResult.ok b t := h
    cases h2
    exact le_max_left 0 _

/-- C8 witness: a concrete summary with spent greater than target still has
a non-negative remainingClassic. -/
theorem C8_remainingClassic_nonneg_witness :
    summarize exStoreSpent 7 2 0 10 =
      .ok dining
        { funded := 0, spent := 0, remainingClassic := 100, envelopeRemaining := 0 } ∧
    (0 : Int) ≤
      (Totals.mk 0 0 100 0).remainingClassic :=
  ⟨by decide,
    C8_remainingClassic_nonneg exStoreSpent 7 2 0 10 dining
      (Totals.mk 0 0 100 0) (by decide)⟩

/-- C10: the soft delete of an expense (DELETE /expenses/:id) never changes
any budget summary, because the summary's expense aggregation filters only
on workspaceId, budgetId and date, never on the `active` flag, and the soft
delete only rewrites `active`, `archivedAt` and `updatedAt`. -/
theorem C10_softDelete_summary_invariant (s : Store) (ws eid now ws2 bid fromD toD : Nat) :
    summarize ((deleteExpense s ws eid now).2) ws2 bid fromD toD =
      summarize s ws2 bid fromD toD :=
  summarize_deleteExpense s ws eid now ws2 bid fromD toD

/-- C3: every successful transfer appends exactly two ledger entries: a
debit leg on the source budget with amount `-|A|` and a credit leg on the
destination budget with amount `|A|`, both with the same date and the same
createdAt timestamp. -/
theorem C3_transfer_two_legs (s : Store) (ws f t : Nat) (A : Int)
    (note : Option String) (now : Nat) (w : WriteOutcome)
    (h : (transfer s ws f t A note now w).1 = .ok) :
    ∃ debit credit : Funding,
      (transfer s ws f t A note now w).2.fundings = s.fundings ++ [debit, credit] ∧
      debit.budgetId = f ∧ credit.budgetId = t ∧
      debit.amount = -|A| ∧ credit.amount = |A| ∧
      debit.date = credit.date ∧ debit.createdAt = credit.createdAt := by
  obtain ⟨hA, hne, hc, hpost⟩ := transfer_ok_spec s ws f t A note now w h
  refine ⟨{ workspaceId := ws, budgetId := f, amount := -|A|, date := now
            note := some (transferNoteOut note)
            source := "transfer", createdAt := now },
          { workspaceId := ws, budgetId := t, amount := |A|, date := now
            note := some (transferNoteIn note)
            source := "transfer", createdAt := now },
          ?_, rfl, rfl, rfl, rfl, rfl, rfl⟩
  rw [hpost]
  rfl

/-- C3 witness: a concrete successful transfer. -/
theorem C3_transfer_two_legs_witness :
    (transfer exStore 7 1 2 30 none 10 .ok).1 = .ok ∧
    ∃ debit credit : Funding,
      (transfer exStore 7 1 2 30 none 10 .ok).2.fundings =
        exStore.fundings ++ [debit, credit] ∧
      debit.budgetId = 1 ∧ credit.budgetId = 2 ∧
      debit.amount = -|(30 : Int)| ∧ credit.amount = |(30 : Int)| ∧
      debit.date = credit.date ∧ debit.createdAt = credit.createdAt :=
  ⟨by decide, C3_transfer_two_legs exStore 7 1 2 30 none 10 .ok (by decide)⟩

/-- C7: with a valid (positive) amount, the funding operation fails with
NotFound exactly when the referenced budget is missing from the workspace or
archived, and then writes nothing; otherwise it appends the one funding
document and returns it. -/
theorem C7_fund_behavior (s : Store) (ws bid : Nat) (A : Int) (date : Nat)
    (note src : Option String) (now : Nat) (hA : 0 < A) :
    (¬ budgetActiveIn s ws bid →
      fund s ws bid A date note src now = (.notFound, s)) ∧
    (budgetActiveIn s ws bid →
      fund s ws bid A date note src now =
        (.ok (fundDoc ws bid A date note src now),
          { s with fundings := s.fundings ++ [fundDoc ws bid A date note src now] })) := by
  constructor
  · intro hn
    unfold fund
    rw [if_neg (by omega), (findBudgetActive_eq_none_iff s ws bid).mpr hn]
  · intro hy
    unfold fund
    rw [if_neg (by omega)]
    obtain ⟨b, hb⟩ :=
      Option.isSome_iff_exists.mp ((findBudgetActive_isSome_iff s ws bid).mpr hy)
    rw [hb]

/-- C7 witness: funding the archived Travel budget (id 3) fails and writes
nothing; funding the active Groceries budget (id 1) appends one entry. -/
theorem C7_fund_behavior_witness :
    (0 : Int) < 30 ∧
    ((¬ budgetActiveIn exStore 7 3 →
        fund exStore 7 3 30 5 none none 10 = (.notFound, exStore)) ∧
      (budgetActiveIn exStore 7 3 →
        fund exStore 7 3 30 5 none none 10 =
          (.ok (fundDoc 7 3 30 5 none none 10),
            { exStore with fundings := exStore.fundings ++ [fundDoc 7 3 30 5 none none 10] }))) :=
  ⟨by decide, C7_fund_behavior exStore 7 3 30 5 none none 10 (by decide)⟩

/-- C6: with a valid (positive) amount and unique budget ids, the transfer
operation fails with InvalidTransfer when source and destination ids are
equal, and fails with BudgetNotFound when the two budgets are not both found
as active budgets of the workspace; in both failures the store is unchanged
(no ledger entry is written). -/
theorem C6_transfer_failures (s : Store) (ws f t : Nat) (A : Int)
    (note : Option String) (now : Nat) (w : WriteOutcome) (hA : 0 < A)
    (hnd : (s.budgets.map Budget.oid).Nodup) :
    (f = t → transfer s ws f t A note now w = (.invalidTransfer, s)) ∧
    (f ≠ t → ¬ (budgetActiveIn s ws f ∧ budgetActiveIn s ws t) →
      transfer s ws f t A note now w = (.budgetNotFound, s)) := by
  constructor
  · intro he
    unfold transfer
    rw [if_neg (by omega), if_pos he]
  · intro hne hnb
    unfold transfer
    rw [if_neg (by omega), if_neg hne]
    have hcount : countMatchingBudgets s ws f t ≠ 2 := fun h2 =>
      hnb (count_two_both_found s ws f t hnd h2)
    rw [if_pos hcount]

/-- C6 witness: a transfer from Groceries (id 1) to the archived Travel
budget (id 3) fails with BudgetNotFound and writes nothing; a transfer from
a budget to itself fails with InvalidTransfer. -/
theorem C6_transfer_failures_witness :
    (0 : Int) < 30 ∧ (exStore.budgets.map Budget.oid).Nodup ∧
    ((1 = 1 → transfer exStore 7 1 1 30 none 10 .ok = (.invalidTransfer, exStore)) ∧
      ((1 : Nat) ≠ 3 → ¬ (budgetActiveIn exStore 7 1 ∧ budgetActiveIn exStore 7 3) →
        transfer exStore 7 1 3 30 none 10 .ok = (.budgetNotFound, exStore))) :=
  ⟨by decide, by decide,
    (C6_transfer_failures exStore 7 1 1 30 none 10 .ok (by decide) (by decide)).1,
    (C6_transfer_failures exStore 7 1 3 30 none 10 .ok (by decide) (by decide)).2⟩

/-- C5: a successful funding of amount A whose date lies inside the summary
window raises the summary's funded total by exactly A. -/
theorem C5_fund_raises_funded (s : Store) (ws bid : Nat) (A : Int) (date : Nat)
    (note src : Option String) (now : Nat) (e : Funding) (fromD toD : Nat)
    (he : (fund s ws bid A date note src now).1 = .ok e)
    (h1 : fromD ≤ date) (h2 : date < toD) :
    ∃ b t0 t1,
      summarize s ws bid fromD toD = .ok b t0 ∧
      summarize ((fund s ws bid A date note src now).2) ws bid fromD toD = .ok b t1 ∧
      t1.funded = t0.funded + A := by
  obtain ⟨hA, hact, hedoc, hpost⟩ := fund_ok_spec s ws bid A date note src now e he
  obtain ⟨b, hb⟩ := findBudgetAny_isSome_of_active s ws bid hact
  have hb2 : findBudgetAny
      { s with fundings := s.fundings ++ [fundDoc ws bid A date note src now] }
      ws bid = some b := hb
  refine ⟨b, summaryTotals s ws bid fromD toD b,
    summaryTotals
      { s with fundings := s.fundings ++ [fundDoc ws bid A date note src now] }
      ws bid fromD toD b,
    summarize_funded s ws bid fromD toD b hb, ?_, ?_⟩
  · rw [hpost]
    exact summarize_funded _ ws bid fromD toD b hb2
  · show fundedSum
        { s with fundings := s.fundings ++ [fundDoc ws bid A date note src now] }
        ws bid fromD toD
      = fundedSum s ws bid fromD toD + A
    rw [fundedSum_append]
    simp [fundDoc, h1, h2]

/-- C5 witness: funding Groceries with 150 on day 1 raises funded from 0 to
150 for the window [0, 10). -/
theorem C5_fund_raises_funded_witness :
    (fund exStore 7 1 150 1 none none 1).1 =
      .ok (fundDoc 7 1 150 1 none none 1) ∧
    (0 : Nat) ≤ 1 ∧ (1 : Nat) < 10 ∧
    ∃ b t0 t1,
      summarize exStore 7 1 0 10 = .ok b t0 ∧
      summarize ((fund exStore 7 1 150 1 none none 1).2) 7 1 0 10 = .ok b t1 ∧
      t1.funded = t0.funded + 150 :=
  ⟨by decide, by decide, by decide,
    C5_fund_raises_funded exStore 7 1 150 1 none none 1
      (fundDoc 7 1 150 1 none none 1) 0 10 (by decide) (by decide) (by decide)⟩

/-- C4: a successful transfer of amount A from budget f to budget t moves
the funded totals of every summary window containing the transfer date by
exactly -A and +A respectively, leaving their sum unchanged. -/
theorem C4_transfer_conservation (s : Store) (ws f t : Nat) (A : Int)
    (note : Option String) (now : Nat) (w : WriteOutcome) (fromD toD : Nat)
    (hnd : (s.budgets.map Budget.oid).Nodup)
    (h : (transfer s ws f t A note now w).1 = .ok)
    (h1 : fromD ≤ now) (h2 : now < toD) :
    ∃ bf bt t0 t1 u0 u1,
      summarize s ws f fromD toD = .ok bf t0 ∧
      summarize ((transfer s ws f t A note now w).2) ws f fromD toD = .ok bf t1 ∧
      summarize s ws t fromD toD = .ok bt u0 ∧
      summarize ((transfer s ws f t A note now w).2) ws t fromD toD = .ok bt u1 ∧
      t1.funded = t0.funded - A ∧
      u1.funded = u0.funded + A ∧
      t1.funded + u1.funded = t0.funded + u0.funded := by
  obtain ⟨hA, hne, hc, hpost⟩ := transfer_ok_spec s ws f t A note now w h
  obtain ⟨haf, hat⟩ := count_two_both_found s ws f t hnd hc
  obtain ⟨bf, hbf⟩ := findBudgetAny_isSome_of_active s ws f haf
  obtain ⟨bt, hbt⟩ := findBudgetAny_isSome_of_active s ws t hat
  have habs : |A| = A := abs_of_pos hA
  have htf : (t == f) = false := by simp [Ne.symm hne]
  have hft : (f == t) = false := by simp [hne]
  have hbf2 : findBudgetAny
      { s with fundings := s.fundings ++ transferDocs ws f t A note now }
      ws f = some bf := hbf
  have hbt2 : findBudgetAny
      { s with fundings := s.fundings ++ transferDocs ws f t A note now }
      ws t = some bt := hbt
  have hfund_f : fundedSum
      { s with fundings := s.fundings ++ transferDocs ws f t A note now }
      ws f fromD toD = fundedSum s ws f fromD toD - A := by
    rw [fundedSum_append]
    have hd : (((transferDocs ws f t A note now).filter (fun fd =>
        fd.workspaceId == ws && fd.budgetId == f &&
        decide (fromD ≤ fd.date) && decide (fd.date < toD))).map Funding.amount).sum
        = -A := by
      simp [transferDocs, h1, h2, htf, habs]
    rw [hd]
    omega
  have hfund_t : fundedSum
      { s with fundings := s.fundings ++ transferDocs ws f t A note now }
      ws t fromD toD = fundedSum s ws t fromD toD + A := by
    rw [fundedSum_append]
    have hd : (((transferDocs ws f t A note now).filter (fun fd =>
        fd.workspaceId == ws && fd.budgetId == t &&
        decide (fromD ≤ fd.date) && decide (fd.date < toD))).map Funding.amount).sum
        = A := by
      simp [transferDocs, h1, h2, hft, habs]
    rw [hd]
  refine ⟨bf, bt, summaryTotals s ws f fromD toD bf,
    summaryTotals
      { s with fundings := s.fundings ++ transferDocs ws f t A note now }
      ws f fromD toD bf,
    summaryTotals s ws t fromD toD bt,
    summaryTotals
      { s with fundings := s.fundings ++ transferDocs ws f t A note now }
      ws t fromD toD bt,
    summarize_funded s ws f fromD toD bf hbf, ?_,
    summarize_funded s ws t fromD toD bt hbt, ?_, ?_, ?_, ?_⟩
  · rw [hpost]
    exact summarize_funded _ ws f fromD toD bf hbf2
  · rw [hpost]
    exact summarize_funded _ ws t fromD toD bt hbt2
  · exact hfund_f
  · exact hfund_t
  · show fundedSum
        { s with fundings := s.fundings ++ transferDocs ws f t A note now }
        ws f fromD toD +
      fundedSum
        { s with fundings := s.fundings ++ transferDocs ws f t A note now }
        ws t fromD toD
      = fundedSum s ws f fromD toD + fundedSum s ws t fromD toD
    rw [hfund_f, hfund_t]
    ring

/-- C4 witness: a concrete transfer of 30 from Groceries to Dining inside
the window [0, 50). -/
theorem C4_transfer_conservation_witness :
    (exStore.budgets.map Budget.oid).Nodup ∧
    (transfer exStore 7 1 2 30 none 10 .ok).1 = .ok ∧
    (0 : Nat) ≤ 10 ∧ (10 : Nat) < 50 ∧
    ∃ bf bt t0 t1 u0 u1,
      summarize exStore 7 1 0 50 = .ok bf t0 ∧
      summarize ((transfer exStore 7 1 2 30 none 10 .ok).2) 7 1 0 50 = .ok bf t1 ∧
      summarize exStore 7 2 0 50 = .ok bt u0 ∧
      summarize ((transfer exStore 7 1 2 30 none 10 .ok).2) 7 2 0 50 = .ok bt u1 ∧
      t1.funded = t0.funded - 30 ∧
      u1.funded = u0.funded + 30 ∧
      t1.funded + u1.funded = t0.funded + u0.funded :=
  ⟨by decide, by decide, by decide, by decide,
    C4_transfer_conservation exStore 7 1 2 30 none 10 .ok 0 50
      (by decide) (by decide) (by decide) (by decide)⟩

/-- The bucket transfer runs inside a transaction: under every write
outcome it appends both legs or nothing. -/
theorem bucketTransfer_atomic (txns : List BucketTxn) (ws u f t : Nat) (a : Int)
    (now : Nat) (w : WriteOutcome) :
    (bucketTransfer txns ws u f t a now w).2 = txns ∨
    (bucketTransfer txns ws u f t a now w).2 =
      txns ++ bucketTransferDocs ws u f t a now := by
  cases w with
  | ok => exact Or.inr (by simp [bucketTransfer])
  | failAfter k =>
    by_cases hk : (bucketTransferDocs ws u f t a now).length ≤ k
    · exact Or.inr (by simp [bucketTransfer, hk])
    · exact Or.inl (by simp [bucketTransfer, hk])

/-- The budget transfer appends both legs or nothing in every execution
except a batch-write failure after exactly the first document. -/
theorem transfer_fundings_atomic (s : Store) (ws f t : Nat) (A : Int)
    (note : Option String) (now : Nat) (w : WriteOutcome)
    (hw : w ≠ WriteOutcome.failAfter 1) :
    (transfer s ws f t A note now w).2.fundings = s.fundings ∨
    (transfer s ws f t A note now w).2.fundings =
      s.fundings ++ transferDocs ws f t A note now := by
  by_cases hA : A ≤ 0
  · exact Or.inl (by simp [transfer, hA])
  by_cases he : f = t
  · exact Or.inl (by simp [transfer, hA, he])
  by_cases hc : countMatchingBudgets s ws f t ≠ 2
  · exact Or.inl (by simp [transfer, hA, he, hc])
  cases w with
  | ok => exact Or.inr (by simp [transfer, hA, he, hc])
  | failAfter k =>
    by_cases hk : (transferDocs ws f t A note now).length ≤ k
    · exact Or.inr (by simp [transfer, hA, he, hc, hk])
    · have hk0 : k = 0 := by
        have hk1 : k ≠ 1 := fun h1 => hw (by rw [h1])
        have hlen : (transferDocs ws f t A note now).length = 2 := rfl
        omega
      subst hk0
      exact Or.inl (by simp [transfer, transferDocs, hA, he, hc])

/-- C1 counterexample: with both budgets active, a storage failure after the
first document of the ordered `insertMany` batch (POST /budgets/transfer)
leaves the store with exactly the debit leg persisted and no credit leg —
a state in which exactly one of the two legs is observable. -/
theorem C1_counterexample_partial_transfer :
    (transfer exStore 7 1 2 30 none 10 (.failAfter 1)).1 = .storageFailure ∧
    (transfer exStore 7 1 2 30 none 10 (.failAfter 1)).2.fundings.length = 1 ∧
    ((transfer exStore 7 1 2 30 none 10 (.failAfter 1)).2.fundings.filter
      (fun fd => fd.budgetId == 1)).length = 1 ∧
    ((transfer exStore 7 1 2 30 none 10 (.failAfter 1)).2.fundings.filter
      (fun fd => fd.budgetId == 2)).length = 0 := by
  decide

/-- C1 amended: the buckets transfer (session transaction) persists both
legs or neither under every write outcome; the budgets transfer (ordered
`insertMany`) persists both legs or neither in every execution except a
storage failure after exactly the first leg, which durably leaves only the
debit leg. -/
theorem C1_transfer_atomicity_amended (txns : List BucketTxn) (ws u f t : Nat)
    (a : Int) (nowB : Nat) (wB : WriteOutcome) (s : Store) (ws2 f2 t2 : Nat)
    (a2 : Int) (note : Option String) (now2 : Nat) (w2 : WriteOutcome)
    (hw : w2 ≠ WriteOutcome.failAfter 1) :
    ((bucketTransfer txns ws u f t a nowB wB).2 = txns ∨
      (bucketTransfer txns ws u f t a nowB wB).2 =
        txns ++ bucketTransferDocs ws u f t a nowB) ∧
    ((transfer s ws2 f2 t2 a2 note now2 w2).2.fundings = s.fundings ∨
      (transfer s ws2 f2 t2 a2 note now2 w2).2.fundings =
        s.fundings ++ transferDocs ws2 f2 t2 a2 note now2) :=
  ⟨bucketTransfer_atomic txns ws u f t a nowB wB,
    transfer_fundings_atomic s ws2 f2 t2 a2 note now2 w2 hw⟩

/-- C1 amended witness: concrete instances of both transfers. -/
theorem C1_transfer_atomicity_amended_witness :
    WriteOutcome.ok ≠ WriteOutcome.failAfter 1 ∧
    (((bucketTransfer [] 1 2 3 4 5 6 .ok).2 = [] ∨
        (bucketTransfer [] 1 2 3 4 5 6 .ok).2 = [] ++ bucketTransferDocs 1 2 3 4 5 6) ∧
      ((transfer exStore 7 1 2 30 none 10 .ok).2.fundings = exStore.fundings ∨
        (transfer exStore 7 1 2 30 none 10 .ok).2.fundings =
          exStore.fundings ++ transferDocs 7 1 2 30 none 10)) :=
  ⟨by decide,
    C1_transfer_atomicity_amended [] 1 2 3 4 5 6 .ok exStore 7 1 2 30 none 10 .ok
      (by decide)⟩

/-- C9 counterexample: POST /expenses accepts a negative amount (`num` only
checks finiteness), stores it unchanged, and the resulting spent total of
the summary aggregation is negative. -/
theorem C9_counterexample_negative_expense :
    ((createExpense exStore 7 99 none (some 1) (some (-5)) (some 3) 10 100).2.expenses.map
      Expense.amount) = [-5] ∧
    spentSum (createExpense exStore 7 99 none (some 1) (some (-5)) (some 3) 10 100).2
      7 1 0 50 < 0 := by
  decide

/-- C9 amended: expense creation stores the given amount unchanged (only
finiteness is validated, no sign check), and the spent total is
non-negative exactly for stores whose expense amounts are all
non-negative. -/
theorem C9_amended_spent_nonneg (s : Store) (ws userId : Nat)
    (cid bidO : Option Nat) (a : Int) (d : Option Nat) (now nid : Nat)
    (e : Expense) (ws2 bid fromD toD : Nat)
    (he : (createExpense s ws userId cid bidO (some a) d now nid).1 = .ok e)
    (hpos : ∀ x ∈ s.expenses, 0 ≤ x.amount) :
    e.amount = a ∧ 0 ≤ spentSum s ws2 bid fromD toD := by
  constructor
  · have h1 : e = automapBudget s ws (expenseBase ws userId cid bidO a d now nid) :=
      createExpenseInsert_ok s ws _ e he
    rw [h1, automapBudget_amount]
    rfl
  · unfold spentSum
    apply List.sum_nonneg
    intro x hx
    simp only [List.mem_map] at hx
    obtain ⟨y, hy, hxy⟩ := hx
    rw [← hxy]
    exact hpos y (List.mem_of_mem_filter hy)

/-- C9 amended witness: a concrete accepted expense and a concrete
all-non-negative store. -/
theorem C9_amended_spent_nonneg_witness :
    (createExpense exStore 7 99 none (some 1) (some 2) (some 3) 10 100).1 =
      .ok (expenseBase 7 99 none (some 1) 2 (some 3) 10 100) ∧
    (∀ x ∈ exStore.expenses, (0 : Int) ≤ x.amount) ∧
    ((expenseBase 7 99 none (some 1) 2 (some 3) 10 100).amount = 2 ∧
      (0 : Int) ≤ spentSum exStore 7 1 0 50) :=
  ⟨by decide, by decide,
    C9_amended_spent_nonneg exStore 7 99 none (some 1) 2 (some 3) 10 100
      (expenseBase 7 99 none (some 1) 2 (some 3) 10 100) 7 1 0 50
      (by decide) (by decide)⟩

end ExpenseManager
